import Mathlib

/-!
Shallow embedding of `src/BabyMicrowave.ino`.

The whole program is one polled state machine: `setup()` initialises a
bit-packed `byte state` together with `stateChangeTime` and `onDuration`,
and `loop()` performs one tick.  We embed one tick as a pure function
`tick : Config → MState → Nat → Bool → Nat → MState × Effect`:

* `MState` carries the four bits of the packed `state` byte as named
  booleans (`closed` = bit 0 / IS_CLOSED, `isOn` = bit 1 / IS_ON,
  `wasClosed` = bit 2 / WAS_CLOSED, `binging` = bit 3 / IS_BINGING),
  plus `stateChangeTime : Nat` (the value of the `unsigned long`, always
  reduced modulo 2^32 by the arithmetic) and `onDuration : Int`
  (the 16-bit `int onDuration`; every value the program stores in it lies
  in [2000, 20432], so no 16-bit overflow arises in its arithmetic).
* `now` stands for the value returned by `millis()` during the tick
  (the source calls `millis()` up to three times per pass of `loop()`;
  we model one tick at one instant, as the design document does).
* `rawClosed` is `digitalRead(BUTTON_PIN) == LOW`, i.e. the raw reading
  with `true` meaning the door switch is pressed (door closed).
* `pot` is the value `analogRead(TIMER_ANALOG_PIN)` would return
  (0..1023 by the hardware contract).
* The branch structure of `loop()` tests the packed bits only after
  `REMEMBER_IF_CLOSED()` and the `digitalRead` update have run, so at the
  test points `WAS_CLOSED()` equals the pre-tick `closed` field and
  `IS_CLOSED()` equals `rawClosed`; the embedding tests those values
  directly and performs the two writes (`wasClosed := closed`,
  `closed := rawClosed`) in every branch, exactly as the source does at
  its top.
* `Effect` records the hardware commands issued during the tick:
  the `digitalWrite(LIGHT_PIN, _)` level, and the speaker command
  (`tone(pin, freq, dur)`, or the `noTone` + force-low pair of the
  door-open branch, or nothing).

Compile-time `#ifdef` configuration: the source defines `SPEAKER_PIN` and
`TIMER_PIN`, and its comments describe the build variants with either
commented out.  `Config` carries those two flags; `arduinoCfg` is the
configuration of the file as committed (both present), `noTimerCfg` has
the potentiometer compiled out.
-/

namespace BabyMicrowave

/-- Constant `TONE_FREQ_COOKING` (line 31 of the ino file). -/
def TONE_FREQ_COOKING : Nat := 80

/-- Constant `TONE_FREQ_BING` (line 32). -/
def TONE_FREQ_BING : Nat := 2500

/-- Constant `BING_DURATION_MS` (line 33). -/
def BING_DURATION_MS : Nat := 350

/-- Constant `ON_DURATION_MIN_MS` (line 34). -/
def ON_DURATION_MIN_MS : Nat := 2000

/-- Constant `ON_DURATION_RANGE_SECS` (line 35). -/
def ON_DURATION_RANGE_SECS : Nat := 18

/-- Constant `DEBOUNCE_TIME` (line 36). -/
def DEBOUNCE_TIME : Nat := 100

/-- The `unsigned long` subtraction `millis() - stateChangeTime`:
32-bit wraparound-safe difference, i.e. `(now - t) mod 2^32`. -/
def elapsed32 (now t : Nat) : Nat :=
  (now + 4294967296 - t % 4294967296) % 4294967296

/-- Conversion of an `unsigned long` value to the AVR 16-bit signed `int`,
as performed by `int timeSinceClose = millis() - stateChangeTime;`
(line 105): keep the low 16 bits and reinterpret them as signed. -/
def toInt16 (n : Nat) : Int :=
  if n % 65536 < 32768 then ((n % 65536 : Nat) : Int)
  else ((n % 65536 : Nat) : Int) - 65536

/-- Command written to `LIGHT_PIN` during a tick, if any. -/
inductive LightCmd
  | nothing
  | high
  | low
deriving DecidableEq, Repr

/-- Command sent to the speaker during a tick, if any.  `stop` is the
`noTone` plus force-low pair of the door-open branch; `play f d` is
`tone(SPEAKER_PIN, f, d)`. -/
inductive ToneCmd
  | nothing
  | stop
  | play (freq : Nat) (durationMs : Int)
deriving DecidableEq, Repr

/-- The hardware commands issued by one pass of `loop()`. -/
structure Effect where
  light : LightCmd
  tone : ToneCmd
deriving DecidableEq, Repr

/-- A tick that issues no hardware command. -/
def noEffect : Effect := ⟨LightCmd.nothing, ToneCmd.nothing⟩

/-- Which optional hardware the build compiled in (`#ifdef SPEAKER_PIN`,
`#ifdef TIMER_PIN`). -/
structure Config where
  hasSpeaker : Bool
  hasTimer : Bool
deriving DecidableEq, Repr

/-- The configuration of the committed source: both `SPEAKER_PIN` and
`TIMER_PIN` are defined. -/
def arduinoCfg : Config := ⟨true, true⟩

/-- The build variant with `TIMER_PIN` commented out (no potentiometer). -/
def noTimerCfg : Config := ⟨true, false⟩

/-- The controller state: the four bits of the packed `state` byte as
booleans, together with `stateChangeTime` and `onDuration`. -/
structure MState where
  stateChangeTime : Nat
  closed : Bool
  isOn : Bool
  wasClosed : Bool
  binging : Bool
  onDuration : Int
deriving DecidableEq, Repr

/-- The state after `setup()` at boot time `t0`: `stateChangeTime = millis()`,
`SET_CLOSED(); SET_OFF(); SET_FINISHED_BINGING();` — and the `WAS_CLOSED`
bit of the zero-initialised `state` byte is untouched, hence false. -/
def initState (t0 : Nat) : MState :=
  { stateChangeTime := t0
    closed := true
    isOn := false
    wasClosed := false
    binging := false
    onDuration := (ON_DURATION_MIN_MS : Int) }

/-- The cook duration computed by the door-close branch (lines 164-167):
`unsigned int reading = 1024 - analogRead(TIMER_ANALOG_PIN);`
`onDuration = ON_DURATION_MIN_MS + reading * ON_DURATION_RANGE_SECS;`
guarded by `#ifdef TIMER_PIN` — without the timer pin `onDuration` is left
as it was.  For `pot` in 0..1023 all the arithmetic stays far below the
16-bit limits, so plain numbers model the C values exactly. -/
def cookDuration (cfg : Config) (pot : Nat) (old : Int) : Int :=
  if cfg.hasTimer then
    ((ON_DURATION_MIN_MS + (1024 - pot) * ON_DURATION_RANGE_SECS : Nat) : Int)
  else old

/-- One pass of `loop()` (lines 88-177).  Branches, in source order:
debounce gate (89-91); `WAS_CLOSED` and door now open (108-121);
`WAS_CLOSED`, still closed, timer expiry (125-134); `WAS_CLOSED`, still
closed, bing finished (136-141); `WAS_OPEN && IS_CLOSED` door-close
(146-174); otherwise fall through.  Every non-gated branch also performs
the `REMEMBER_IF_CLOSED()` snapshot and the `digitalRead` update, i.e.
`wasClosed := closed, closed := rawClosed`. -/
def tick (cfg : Config) (s : MState) (now : Nat) (rawClosed : Bool) (pot : Nat) :
    MState × Effect :=
  if elapsed32 now s.stateChangeTime < DEBOUNCE_TIME then
    (s, noEffect)
  else if s.closed = true then
    if rawClosed = false then
      ({ s with wasClosed := s.closed, closed := rawClosed,
                isOn := false, binging := false },
       { light := LightCmd.high,
         tone := if cfg.hasSpeaker then ToneCmd.stop else ToneCmd.nothing })
    else if s.isOn = true ∧
        s.onDuration < toInt16 (elapsed32 now s.stateChangeTime) then
      ({ s with wasClosed := s.closed, closed := rawClosed,
                isOn := false, binging := true },
       { light := LightCmd.low,
         tone := if cfg.hasSpeaker then
             ToneCmd.play TONE_FREQ_BING (BING_DURATION_MS : Int)
           else ToneCmd.nothing })
    else if s.isOn = false ∧ s.binging = true ∧
        s.onDuration + (BING_DURATION_MS : Int) <
          toInt16 (elapsed32 now s.stateChangeTime) then
      ({ s with wasClosed := s.closed, closed := rawClosed, binging := false },
       noEffect)
    else
      ({ s with wasClosed := s.closed, closed := rawClosed }, noEffect)
  else if rawClosed = true then
    ({ s with wasClosed := s.closed, closed := rawClosed, isOn := true,
              onDuration := cookDuration cfg pot s.onDuration,
              stateChangeTime := now },
     { light := LightCmd.high,
       tone := if cfg.hasSpeaker then
           ToneCmd.play TONE_FREQ_COOKING (cookDuration cfg pot s.onDuration)
         else ToneCmd.nothing })
  else
    ({ s with wasClosed := s.closed, closed := rawClosed }, noEffect)

/-- Iterated ticks: fold `tick` over a list of inputs `(now, rawClosed, pot)`,
discarding the effects. -/
def runTicks (cfg : Config) (s : MState) (inputs : List (Nat × Bool × Nat)) :
    MState :=
  inputs.foldl (fun st i => (tick cfg st i.1 i.2.1 i.2.2).1) s

/-- The flag invariant used to settle the mutual-exclusion claim: the
machine is never simultaneously on and binging, and binging only happens
with the door considered closed. -/
def GoodFlags (s : MState) : Prop :=
  (s.isOn = true → s.binging = false) ∧ (s.binging = true → s.closed = true)

/-- The four recognised transitions of a tick, phrased on the pre-tick
state and the raw inputs: the debounce gate passes, and either the
door-open branch, the timer-expiry branch, the bing-finished branch or
the door-close branch fires. -/
def recognizes (s : MState) (now : Nat) (rawClosed : Bool) : Prop :=
  ¬ elapsed32 now s.stateChangeTime < DEBOUNCE_TIME ∧
  ((s.closed = true ∧ rawClosed = false) ∨
   (s.closed = true ∧ rawClosed = true ∧ s.isOn = true ∧
     s.onDuration < toInt16 (elapsed32 now s.stateChangeTime)) ∨
   (s.closed = true ∧ rawClosed = true ∧ s.isOn = false ∧ s.binging = true ∧
     s.onDuration + (BING_DURATION_MS : Int) <
       toInt16 (elapsed32 now s.stateChangeTime)) ∨
   (s.closed = false ∧ rawClosed = true))

example : elapsed32 500 0 = 500 := by decide
example : toInt16 40000 = -25536 := by decide
example :
    (tick arduinoCfg (initState 0) 500 true 0).1 =
      { initState 0 with wasClosed := true } := by decide

/-- A 32-bit difference below 32768 is its own 16-bit signed reading. -/
lemma toInt16_small {n : Nat} (h : n < 32768) : toInt16 n = (n : Int) := by
  unfold toInt16
  rw [Nat.mod_eq_of_lt (by omega)]
  simp [h]

/-- Zero elapsed time since a change at the same instant. -/
lemma elapsed32_self (n : Nat) : elapsed32 n n = 0 := by
  unfold elapsed32
  omega

/-- A tick inside the debounce window is the identity and issues nothing. -/
lemma tick_debounced (cfg : Config) (s : MState) (now : Nat) (rawClosed : Bool)
    (pot : Nat) (h : elapsed32 now s.stateChangeTime < DEBOUNCE_TIME) :
    tick cfg s now rawClosed pot = (s, noEffect) := by
  unfold tick
  simp [h]

/-- Helper: evaluation of the door-open branch (lines 108-121). -/
lemma tick_open_eq (cfg : Config) (s : MState) (now pot : Nat)
    (hg : ¬ elapsed32 now s.stateChangeTime < DEBOUNCE_TIME)
    (hc : s.closed = true) :
    tick cfg s now false pot =
      ({ s with wasClosed := true, closed := false,
                isOn := false, binging := false },
       { light := LightCmd.high,
         tone := if cfg.hasSpeaker then ToneCmd.stop else ToneCmd.nothing }) := by
  unfold tick
  simp [hg, hc]

/-- Helper: evaluation of the timer-expiry branch (lines 125-134). -/
lemma tick_expiry_eq (cfg : Config) (s : MState) (now pot : Nat)
    (hg : ¬ elapsed32 now s.stateChangeTime < DEBOUNCE_TIME)
    (hc : s.closed = true) (hon : s.isOn = true)
    (hgt : s.onDuration < toInt16 (elapsed32 now s.stateChangeTime)) :
    tick cfg s now true pot =
      ({ s with wasClosed := true, closed := true,
                isOn := false, binging := true },
       { light := LightCmd.low,
         tone := if cfg.hasSpeaker then
             ToneCmd.play TONE_FREQ_BING (BING_DURATION_MS : Int)
           else ToneCmd.nothing }) := by
  unfold tick
  simp [hg, hc, hon, hgt]

/-- Helper: evaluation of the bing-finished branch (lines 136-141). -/
lemma tick_bingdone_eq (cfg : Config) (s : MState) (now pot : Nat)
    (hg : ¬ elapsed32 now s.stateChangeTime < DEBOUNCE_TIME)
    (hc : s.closed = true) (hoff : s.isOn = false) (hb : s.binging = true)
    (hgt : s.onDuration + (BING_DURATION_MS : Int) <
      toInt16 (elapsed32 now s.stateChangeTime)) :
    tick cfg s now true pot =
      ({ s with wasClosed := true, closed := true, binging := false },
       noEffect) := by
  unfold tick
  simp [hg, hc, hoff, hb, hgt]

/-- Helper: evaluation of the door-close branch (lines 146-174). -/
lemma tick_close_eq (cfg : Config) (s : MState) (now pot : Nat)
    (hg : ¬ elapsed32 now s.stateChangeTime < DEBOUNCE_TIME)
    (hopen : s.closed = false) :
    tick cfg s now true pot =
      ({ s with wasClosed := false, closed := true, isOn := true,
                onDuration := cookDuration cfg pot s.onDuration,
                stateChangeTime := now },
       { light := LightCmd.high,
         tone := if cfg.hasSpeaker then
             ToneCmd.play TONE_FREQ_COOKING (cookDuration cfg pot s.onDuration)
           else ToneCmd.nothing }) := by
  unfold tick
  simp [hg, hopen]

/-- Every tick preserves the flag invariant. -/
lemma goodFlags_tick (cfg : Config) (s : MState) (now : Nat) (rawClosed : Bool)
    (pot : Nat) (h : GoodFlags s) : GoodFlags (tick cfg s now rawClosed pot).1 := by
  unfold GoodFlags at h ⊢
  unfold tick
  split_ifs <;> simp_all

/-- Any number of ticks preserves the flag invariant. -/
lemma goodFlags_runTicks (cfg : Config) (s : MState)
    (inputs : List (Nat × Bool × Nat)) (h : GoodFlags s) :
    GoodFlags (runTicks cfg s inputs) := by
  induction inputs generalizing s with
  | nil => exact h
  | cons i rest ih =>
      exact ih _ (goodFlags_tick cfg s i.1 i.2.1 i.2.2 h)

/-- C3: past the debounce gate, if the door was considered closed on the
previous tick and the raw reading is now open, the tick clears both the
running flag and the binging flag and emits light-high plus tone-stop,
whatever the elapsed time, the potentiometer value, and the previous
running/binging flags were. -/
theorem door_open_clears_all (s : MState) (now pot : Nat)
    (hg : ¬ elapsed32 now s.stateChangeTime < DEBOUNCE_TIME)
    (hc : s.closed = true) :
    tick arduinoCfg s now false pot =
      ({ s with wasClosed := true, closed := false,
                isOn := false, binging := false },
       { light := LightCmd.high, tone := ToneCmd.stop }) :=
  tick_open_eq arduinoCfg s now pot hg hc

/-- Witness for `door_open_clears_all` at a concrete running, binging-free
state, 500 ms after the recognised close. -/
theorem door_open_clears_all_w :
    tick arduinoCfg ⟨0, true, true, true, false, 2000⟩ 500 false 7 =
      (⟨0, false, false, true, false, 2000⟩,
       { light := LightCmd.high, tone := ToneCmd.stop }) :=
  door_open_clears_all ⟨0, true, true, true, false, 2000⟩ 500 7 (by decide) rfl

/-- Helper: the `stateChangeTime` update equation of a tick. -/
lemma tick_stateChangeTime (cfg : Config) (s : MState) (now : Nat)
    (rawClosed : Bool) (pot : Nat) :
    (tick cfg s now rawClosed pot).1.stateChangeTime =
      if ¬ elapsed32 now s.stateChangeTime < DEBOUNCE_TIME ∧
          s.closed = false ∧ rawClosed = true
      then now else s.stateChangeTime := by
  unfold tick
  split_ifs <;> simp_all

/-- C9: `stateChangeTime` is written by a tick exactly when the tick is a
recognised door-close transition (gate passed, door considered open on the
previous tick, raw reading closed), in which case it becomes `now`; the
door-open, timer-expiry and bing-finished branches all leave it unchanged. -/
theorem stateChangeTime_frame (cfg : Config) (s : MState) (now : Nat)
    (rawClosed : Bool) (pot : Nat) :
    (tick cfg s now rawClosed pot).1.stateChangeTime =
      if ¬ elapsed32 now s.stateChangeTime < DEBOUNCE_TIME ∧
          s.closed = false ∧ rawClosed = true
      then now else s.stateChangeTime :=
  tick_stateChangeTime cfg s now rawClosed pot

/-- C6: in every state reachable from the boot state by any sequence of
ticks, under any configuration and inputs, the running flag and the
binging flag are never both set. -/
theorem running_binging_mutex (cfg : Config) (t0 : Nat)
    (inputs : List (Nat × Bool × Nat)) :
    ((runTicks cfg (initState t0) inputs).isOn &&
      (runTicks cfg (initState t0) inputs).binging) = false := by
  have h := goodFlags_runTicks cfg (initState t0) inputs
    (by exact ⟨by simp [initState], by simp [initState]⟩)
  rcases h with ⟨h1, _⟩
  cases hon : (runTicks cfg (initState t0) inputs).isOn
  · simp
  · simp [h1 hon]

/-- C2 counterexample: a recognised door-open transition at `now1 = 150`
changes the state, and a second tick only 1 ms later changes the state
again (the open transition does not update `stateChangeTime`, so the
debounce gate does not hold between the two ticks). -/
theorem debounce_pairwise_fails :
    ((tick arduinoCfg ⟨0, true, true, true, false, 2000⟩ 150 false 0).1 ==
        ⟨0, true, true, true, false, 2000⟩) = false ∧
    elapsed32 151 150 < DEBOUNCE_TIME ∧
    ((tick arduinoCfg
        (tick arduinoCfg ⟨0, true, true, true, false, 2000⟩ 150 false 0).1
        151 true 0).1 ==
      (tick arduinoCfg ⟨0, true, true, true, false, 2000⟩ 150 false 0).1) =
        false := by
  decide

/-- C2 amended: a tick strictly inside the debounce window of
`stateChangeTime` leaves the whole state unchanged and issues nothing;
and since a recognised door-close transition sets `stateChangeTime := now1`,
a second tick less than `DEBOUNCE_TIME` after a recognised close is a
no-op regardless of its inputs. -/
theorem debounce_freeze :
    (∀ (cfg : Config) (s : MState) (now : Nat) (rawClosed : Bool) (pot : Nat),
      elapsed32 now s.stateChangeTime < DEBOUNCE_TIME →
        tick cfg s now rawClosed pot = (s, noEffect)) ∧
    (∀ (cfg : Config) (s : MState) (now1 pot1 now2 : Nat) (raw2 : Bool)
        (pot2 : Nat), s.closed = false →
      ¬ elapsed32 now1 s.stateChangeTime < DEBOUNCE_TIME →
      elapsed32 now2 now1 < DEBOUNCE_TIME →
        tick cfg (tick cfg s now1 true pot1).1 now2 raw2 pot2 =
          ((tick cfg s now1 true pot1).1, noEffect)) := by
  constructor
  · exact fun cfg s now rawClosed pot h => tick_debounced cfg s now rawClosed pot h
  · intro cfg s now1 pot1 now2 raw2 pot2 hopen hg1 hg2
    have hst : (tick cfg s now1 true pot1).1.stateChangeTime = now1 := by
      rw [tick_stateChangeTime]
      simp [hg1, hopen]
    exact tick_debounced cfg _ now2 raw2 pot2 (by rw [hst]; exact hg2)

/-- Witness for `debounce_freeze`: a frozen tick 50 ms after a change, and
a no-op tick 30 ms after a recognised close. -/
theorem debounce_freeze_w :
    tick arduinoCfg ⟨100, true, false, false, false, 2000⟩ 150 false 0 =
      (⟨100, true, false, false, false, 2000⟩, noEffect) ∧
    tick arduinoCfg
        (tick arduinoCfg ⟨0, false, false, false, false, 2000⟩ 300 true 0).1
        330 false 0 =
      ((tick arduinoCfg ⟨0, false, false, false, false, 2000⟩ 300 true 0).1,
       noEffect) :=
  ⟨debounce_freeze.1 arduinoCfg ⟨100, true, false, false, false, 2000⟩ 150
      false 0 (by decide),
   debounce_freeze.2 arduinoCfg ⟨0, false, false, false, false, 2000⟩ 300 0
      330 false 0 rfl (by decide) (by decide)⟩

/-- Helper: with the timer pin compiled out, no tick ever writes
`onDuration`. -/
lemma tick_onDuration_noTimer (s : MState) (now : Nat) (rawClosed : Bool)
    (pot : Nat) :
    (tick noTimerCfg s now rawClosed pot).1.onDuration = s.onDuration := by
  unfold tick cookDuration noTimerCfg
  split_ifs <;> simp_all

/-- Helper: with the timer pin compiled out, `onDuration` keeps its value
across any run. -/
lemma runTicks_onDuration_noTimer (s : MState)
    (inputs : List (Nat × Bool × Nat)) :
    (runTicks noTimerCfg s inputs).onDuration = s.onDuration := by
  induction inputs generalizing s with
  | nil => rfl
  | cons i rest ih =>
      rw [runTicks, List.foldl_cons, ← runTicks, ih, tick_onDuration_noTimer]

/-- Helper: the `onDuration` stored by a recognised door-close transition
under the committed configuration. -/
lemma tick_close_onDuration (s : MState) (now pot : Nat)
    (hg : ¬ elapsed32 now s.stateChangeTime < DEBOUNCE_TIME)
    (hopen : s.closed = false) :
    (tick arduinoCfg s now true pot).1.onDuration =
      ((ON_DURATION_MIN_MS + (1024 - pot) * ON_DURATION_RANGE_SECS : Nat) :
        Int) := by
  rw [tick_close_eq arduinoCfg s now pot hg hopen]
  rfl

/-- C1 counterexample: under the committed configuration a recognised
door-close with a raw potentiometer reading of 0 stores
`onDuration = 20432`, which exceeds `ON_DURATION_MIN_MS = 2000` by far;
and a raw reading of 1023 stores 2018 ms, which is 17982 ms short of
minimum plus range (2000 + 18000), not within one unit of rounding. -/
theorem closeReading0_not_min :
    (tick arduinoCfg ⟨10, false, false, false, false, 2000⟩ 400 true 0).1.onDuration
        = 20432 ∧
    (2000 : Int) <
      (tick arduinoCfg ⟨10, false, false, false, false, 2000⟩ 400 true 0).1.onDuration ∧
    (tick arduinoCfg ⟨10, false, false, false, false, 2000⟩ 400 true 1023).1.onDuration
        = 2018 ∧
    (tick arduinoCfg ⟨10, false, false, false, false, 2000⟩ 400 true 1023).1.onDuration
        < 2000 + 18000 - 18 := by
  decide

/-- C1 amended: with the potentiometer compiled out, `onDuration` is
exactly `ON_DURATION_MIN_MS` forever; with it compiled in, the mapping is
inverted — the raw reading 1023 (the pulled-high, absent-sensor value)
yields 2018 ms, one 18 ms step above the minimum, and the raw reading 0
yields the maximum 20432 ms = 2000 + 1024 * 18. -/
theorem onDuration_absent_and_extremes :
    (∀ (t0 : Nat) (inputs : List (Nat × Bool × Nat)),
      (runTicks noTimerCfg (initState t0) inputs).onDuration =
        (ON_DURATION_MIN_MS : Int)) ∧
    (∀ (s : MState) (now : Nat),
      ¬ elapsed32 now s.stateChangeTime < DEBOUNCE_TIME → s.closed = false →
      (tick arduinoCfg s now true 1023).1.onDuration =
          (ON_DURATION_MIN_MS : Int) + 18 ∧
      (tick arduinoCfg s now true 0).1.onDuration =
          (ON_DURATION_MIN_MS : Int) + 1024 * 18) := by
  constructor
  · intro t0 inputs
    rw [runTicks_onDuration_noTimer]
    rfl
  · intro s now hg hopen
    rw [tick_close_onDuration s now 1023 hg hopen,
      tick_close_onDuration s now 0 hg hopen]
    constructor <;> rfl

/-- Witness for `onDuration_absent_and_extremes`: a timerless two-tick run
keeps 2000 ms, and concrete closes at raw readings 1023 and 0 store
2018 ms and 20432 ms. -/
theorem onDuration_absent_and_extremes_w :
    (runTicks noTimerCfg (initState 0) [(200, false, 0), (300, true, 0)]).onDuration =
      (ON_DURATION_MIN_MS : Int) ∧
    (tick arduinoCfg ⟨0, false, false, false, false, 2000⟩ 250 true 1023).1.onDuration =
      (ON_DURATION_MIN_MS : Int) + 18 ∧
    (tick arduinoCfg ⟨0, false, false, false, false, 2000⟩ 250 true 0).1.onDuration =
      (ON_DURATION_MIN_MS : Int) + 1024 * 18 :=
  ⟨onDuration_absent_and_extremes.1 0 [(200, false, 0), (300, true, 0)],
   (onDuration_absent_and_extremes.2 ⟨0, false, false, false, false, 2000⟩ 250
      (by decide) rfl).1,
   (onDuration_absent_and_extremes.2 ⟨0, false, false, false, false, 2000⟩ 250
      (by decide) rfl).2⟩

/-- C10: a recognised door-close under the committed configuration stores
`onDuration = ON_DURATION_MIN_MS + (1024 - pot) * ON_DURATION_RANGE_SECS`
for every raw reading `pot` in 0..1023; the value is strictly decreasing
in `pot`, lies in [2018, 20432], strictly exceeds the 2000 ms minimum,
and the raw reading 0 gives the maximum 20432 ms. -/
theorem onDuration_formula (s : MState) (now pot : Nat)
    (hg : ¬ elapsed32 now s.stateChangeTime < DEBOUNCE_TIME)
    (hopen : s.closed = false) (hpot : pot ≤ 1023) :
    (tick arduinoCfg s now true pot).1.onDuration =
        (ON_DURATION_MIN_MS : Int) +
          (1024 - (pot : Int)) * (ON_DURATION_RANGE_SECS : Int) ∧
    2018 ≤ (tick arduinoCfg s now true pot).1.onDuration ∧
    (tick arduinoCfg s now true pot).1.onDuration ≤ 20432 ∧
    (ON_DURATION_MIN_MS : Int) < (tick arduinoCfg s now true pot).1.onDuration ∧
    (∀ potB : Nat, pot < potB → potB ≤ 1023 →
      (tick arduinoCfg s now true potB).1.onDuration <
        (tick arduinoCfg s now true pot).1.onDuration) ∧
    (tick arduinoCfg s now true 0).1.onDuration = 20432 := by
  rw [tick_close_onDuration s now pot hg hopen,
    tick_close_onDuration s now 0 hg hopen]
  refine ⟨?_, ?_, ?_, ?_, ?_, ?_⟩
  · unfold ON_DURATION_MIN_MS ON_DURATION_RANGE_SECS
    omega
  · unfold ON_DURATION_MIN_MS ON_DURATION_RANGE_SECS
    omega
  · unfold ON_DURATION_MIN_MS ON_DURATION_RANGE_SECS
    omega
  · unfold ON_DURATION_MIN_MS ON_DURATION_RANGE_SECS
    omega
  · intro potB hlt hle
    rw [tick_close_onDuration s now potB hg hopen]
    unfold ON_DURATION_MIN_MS ON_DURATION_RANGE_SECS
    omega
  · rfl

/-- Witness for `onDuration_formula` at the raw reading 500: the stored
duration is 2000 + 524 * 18 = 11432 ms. -/
theorem onDuration_formula_w :
    (tick arduinoCfg ⟨0, false, false, false, false, 2000⟩ 600 true 500).1.onDuration =
      (ON_DURATION_MIN_MS : Int) +
        (1024 - (500 : Int)) * (ON_DURATION_RANGE_SECS : Int) :=
  (onDuration_formula ⟨0, false, false, false, false, 2000⟩ 600 500
    (by decide) rfl (by decide)).1

/-- C4 counterexample: with the door closed, running, and
`onDuration = 2000`, a tick at elapsed time 40000 ms — which strictly
exceeds `onDuration` — fires no expiry at all, because
`int timeSinceClose` truncates 40000 to the 16-bit signed value -25536:
the machine stays running, starts no bing, and issues nothing. -/
theorem expiry_misses_large_elapsed :
    elapsed32 40000 0 = 40000 ∧
    (2000 : Int) < 40000 ∧
    toInt16 40000 = -25536 ∧
    (tick arduinoCfg ⟨0, true, true, true, false, 2000⟩ 40000 true 0).1.isOn
        = true ∧
    (tick arduinoCfg ⟨0, true, true, true, false, 2000⟩ 40000 true 0).1.binging
        = false ∧
    (tick arduinoCfg ⟨0, true, true, true, false, 2000⟩ 40000 true 0).2
        = noEffect := by
  decide

/-- C4 amended: past the debounce gate, with the door still closed and the
machine running, a tick whose elapsed time since the recognised close
strictly exceeds `onDuration` AND is below 32768 ms (so that the 16-bit
signed truncation of `int timeSinceClose` is faithful) clears running,
sets binging, and emits light-low with a 2500 Hz tone for 350 ms. -/
theorem expiry_fires_small_elapsed (s : MState) (now pot : Nat)
    (hg : ¬ elapsed32 now s.stateChangeTime < DEBOUNCE_TIME)
    (hc : s.closed = true) (hon : s.isOn = true)
    (hgt : s.onDuration < (elapsed32 now s.stateChangeTime : Int))
    (hsm : elapsed32 now s.stateChangeTime < 32768) :
    tick arduinoCfg s now true pot =
      ({ s with wasClosed := true, closed := true,
                isOn := false, binging := true },
       { light := LightCmd.low,
         tone := ToneCmd.play TONE_FREQ_BING (BING_DURATION_MS : Int) }) :=
  tick_expiry_eq arduinoCfg s now pot hg hc hon
    (by rw [toInt16_small hsm]; exact hgt)

/-- Witness for `expiry_fires_small_elapsed`: a running, closed machine
with a 2000 ms duration expires at elapsed time 2500 ms. -/
theorem expiry_fires_small_elapsed_w :
    tick arduinoCfg ⟨0, true, true, false, false, 2000⟩ 2500 true 4 =
      (⟨0, true, false, true, true, 2000⟩,
       { light := LightCmd.low,
         tone := ToneCmd.play TONE_FREQ_BING (BING_DURATION_MS : Int) }) :=
  expiry_fires_small_elapsed ⟨0, true, true, false, false, 2000⟩ 2500 4
    (by decide) rfl rfl (by decide) (by decide)

/-- C8 counterexample: the expiry comparison does not use wraparound-safe
unsigned subtraction all the way down — at elapsed time 32768 ms, which
strictly exceeds the 2018 ms duration, the 16-bit signed truncation reads
-32768 and the running machine does not expire. -/
theorem elapsed_truncation_cex :
    elapsed32 32768 0 = 32768 ∧
    (2018 : Int) < 32768 ∧
    toInt16 32768 = -32768 ∧
    (tick arduinoCfg ⟨0, true, true, true, false, 2018⟩ 32768 true 0).1.isOn
        = true := by
  decide

/-- C8 amended: the debounce gate subtraction is unsigned 32-bit
(mod 2^32, wraparound-safe), but the time-since-close is further truncated
to a 16-bit signed `int`; for a gated tick on a closed, running machine
the expiry happens if and only if the 16-bit signed reading of the 32-bit
elapsed value exceeds `onDuration` — not whenever the elapsed value
itself does. -/
theorem expiry_iff_int16 (s : MState) (now pot : Nat)
    (hg : ¬ elapsed32 now s.stateChangeTime < DEBOUNCE_TIME)
    (hc : s.closed = true) (hon : s.isOn = true) :
    (tick arduinoCfg s now true pot).1.isOn = false ↔
      s.onDuration < toInt16 (elapsed32 now s.stateChangeTime) := by
  unfold tick
  simp [hg, hc, hon]
  split_ifs with h <;> simp_all

/-- Witness for `expiry_iff_int16`: at elapsed time 5000 ms the running
machine with a 2000 ms duration reads 5000 through the truncation and the
equivalence instantiates to a true biconditional. -/
theorem expiry_iff_int16_w :
    ((tick arduinoCfg ⟨0, true, true, false, false, 2000⟩ 5000 true 9).1.isOn
        = false ↔
      (2000 : Int) < toInt16 (elapsed32 5000 0)) :=
  expiry_iff_int16 ⟨0, true, true, false, false, 2000⟩ 5000 9
    (by decide) rfl rfl

/-- C5 counterexample: under the committed configuration, closing the door
with a raw potentiometer reading of 0 emits a cooking tone of 20432 ms,
not 2000 ms, and the follow-up tick 2001 ms later is still cooking: it
starts no bing and leaves binging false. -/
theorem scenario_pot_reading0_diverges :
    (tick arduinoCfg ⟨0, false, false, false, false, 2000⟩ 1000 true 0).2 =
      { light := LightCmd.high, tone := ToneCmd.play 80 20432 } ∧
    ((tick arduinoCfg ⟨0, false, false, false, false, 2000⟩ 1000 true 0).2 ==
      { light := LightCmd.high, tone := ToneCmd.play 80 2000 }) = false ∧
    (tick arduinoCfg
        (tick arduinoCfg ⟨0, false, false, false, false, 2000⟩ 1000 true 0).1
        3001 true 0).1.binging = false ∧
    (tick arduinoCfg
        (tick arduinoCfg ⟨0, false, false, false, false, 2000⟩ 1000 true 0).1
        3001 true 0).2 = noEffect := by
  decide

/-- C5 amended: the stated trace holds with the potentiometer compiled
out, where `onDuration` is exactly 2000 ms (times shifted so the close at
relative t = 0 happens at absolute 1000 ms): the close tick emits
light-high with an 80 Hz cooking tone of 2000 ms; the tick 2001 ms later
emits light-low with a 2500 Hz bing of 350 ms leaving running false and
binging true; the tick 2352 ms after the close issues nothing and clears
binging. -/
theorem scenario_no_pot_trace :
    tick noTimerCfg ⟨0, false, false, false, false, 2000⟩ 1000 true 0 =
      (⟨1000, true, true, false, false, 2000⟩,
       { light := LightCmd.high, tone := ToneCmd.play 80 2000 }) ∧
    tick noTimerCfg ⟨1000, true, true, false, false, 2000⟩ 3001 true 0 =
      (⟨1000, true, false, true, true, 2000⟩,
       { light := LightCmd.low, tone := ToneCmd.play 2500 350 }) ∧
    tick noTimerCfg ⟨1000, true, false, true, true, 2000⟩ 3352 true 0 =
      (⟨1000, true, false, true, false, 2000⟩, noEffect) := by
  decide

/-- C7 counterexample: a recognised door-open transition emits an effect,
and immediately repeating the tick with identical inputs does change the
state — the `wasClosed` snapshot bit flips from true to false on the
repeat — so "produces no state change" fails as stated. -/
theorem repeat_tick_changes_state :
    ((tick arduinoCfg ⟨50, true, true, true, false, 2018⟩ 400 false 0).2 ==
        noEffect) = false ∧
    ((tick arduinoCfg
        (tick arduinoCfg ⟨50, true, true, true, false, 2018⟩ 400 false 0).1
        400 false 0).1 ==
      (tick arduinoCfg ⟨50, true, true, true, false, 2018⟩ 400 false 0).1) =
        false ∧
    (tick arduinoCfg
        (tick arduinoCfg ⟨50, true, true, true, false, 2018⟩ 400 false 0).1
        400 false 0).1.wasClosed = false ∧
    (tick arduinoCfg ⟨50, true, true, true, false, 2018⟩ 400 false 0).1.wasClosed
        = true := by
  decide

/-- C7 amended: immediately repeating the tick of any recognised
transition with identical inputs never re-emits the transition effect —
the repeat issues no hardware command at all — and it preserves the door
flag, the running flag, `stateChangeTime` and `onDuration`; only the
`wasClosed` snapshot (after a door-open transition) and the binging flag
(after an expiry whose elapsed time already passed
`onDuration + BING_DURATION_MS`) may still change. -/
theorem repeat_tick_no_reemit (cfg : Config) (s : MState) (now : Nat)
    (rawClosed : Bool) (pot : Nat) (h : recognizes s now rawClosed) :
    (tick cfg (tick cfg s now rawClosed pot).1 now rawClosed pot).2 =
        noEffect ∧
    (tick cfg (tick cfg s now rawClosed pot).1 now rawClosed pot).1.closed =
      (tick cfg s now rawClosed pot).1.closed ∧
    (tick cfg (tick cfg s now rawClosed pot).1 now rawClosed pot).1.isOn =
      (tick cfg s now rawClosed pot).1.isOn ∧
    (tick cfg (tick cfg s now rawClosed pot).1 now rawClosed pot).1.stateChangeTime =
      (tick cfg s now rawClosed pot).1.stateChangeTime ∧
    (tick cfg (tick cfg s now rawClosed pot).1 now rawClosed pot).1.onDuration =
      (tick cfg s now rawClosed pot).1.onDuration := by
  obtain ⟨hg, hcase⟩ := h
  rcases hcase with ⟨hc, hr⟩ | ⟨hc, hr, hon, hgt⟩ | ⟨hc, hr, hoff, hb, hgt⟩ |
    ⟨hc, hr⟩
  · subst hr
    rw [tick_open_eq cfg s now pot hg hc]
    unfold tick
    simp [hg]
  · subst hr
    rw [tick_expiry_eq cfg s now pot hg hc hon hgt]
    unfold tick
    simp only []
    split_ifs <;> simp_all
  · subst hr
    rw [tick_bingdone_eq cfg s now pot hg hc hoff hb hgt]
    unfold tick
    simp only []
    split_ifs <;> simp_all
  · subst hr
    have hst : (tick cfg s now true pot).1.stateChangeTime = now := by
      rw [tick_stateChangeTime]
      simp [hg, hc]
    have hfrozen := tick_debounced cfg (tick cfg s now true pot).1 now true pot
      (by rw [hst, elapsed32_self]; decide)
    rw [hfrozen]
    simp

/-- Witness for `repeat_tick_no_reemit`: repeating a recognised door-close
tick at the same instant issues nothing and preserves the listed fields. -/
theorem repeat_tick_no_reemit_w :
    (tick arduinoCfg
        (tick arduinoCfg ⟨0, false, false, false, false, 2000⟩ 777 true 3).1
        777 true 3).2 = noEffect ∧
    (tick arduinoCfg
        (tick arduinoCfg ⟨0, false, false, false, false, 2000⟩ 777 true 3).1
        777 true 3).1.isOn =
      (tick arduinoCfg ⟨0, false, false, false, false, 2000⟩ 777 true 3).1.isOn := by
  have h := repeat_tick_no_reemit arduinoCfg ⟨0, false, false, false, false, 2000⟩
    777 true 3 ⟨by decide, Or.inr (Or.inr (Or.inr ⟨rfl, rfl⟩))⟩
  exact ⟨h.1, h.2.2.1⟩

end BabyMicrowave
